import Mathlib

/-!
Verification of the endless-runner game core.

The definitions below are a shallow embedding of the repository's simulation
core: the zustand game-state store (src/store.ts), the level-target helpers
(src/types.ts), and the LevelManager per-tick simulation loop and spawn
scheduler (the large world component).  JavaScript floating-point numbers are
modelled as rationals, JS arrays as lists, and the random draws of the spawn
scheduler as explicit oracle inputs.
-/

/-! Game status enumeration (src/types.ts, GameStatus). -/

inductive GameStatus
  | MENU
  | PLAYING
  | GAME_OVER
  | VICTORY
deriving DecidableEq

/-! Numeric constants (src/types.ts and src/store.ts).  Decimal literals from
the source are written as exact rationals: 22.5 = 45/2, 0.60 = 3/5, 0.8 = 4/5. -/

def RUN_SPEED_BASE : ℚ := 45/2

def LANE_WIDTH : ℚ := 11/5

def SPAWN_DISTANCE : ℚ := 120

def REMOVE_DISTANCE : ℚ := 20

def MAX_LEVEL : ℤ := 3

def LETTER_SPEED_TOTAL_FRACTION : ℚ := 3/5

def DIFFICULTY_MULT : ℚ := 4/5

/-- Source: const makeOdd = (n) => (n % 2 === 0 ? n + 1 : n). -/
def makeOdd (n : ℤ) : ℤ := if n % 2 = 0 then n + 1 else n

/-! Level target texts and normalization (src/types.ts). -/

def LEVEL_TARGET_TEXTS (level : ℤ) : Option String :=
  if level = 1 then some "英荔 AI 创造乐园"
  else if level = 2 then some "玩编程，玩 AI，玩创造"
  else if level = 3 then some "放飞孩子的想象力和创造力"
  else none

/-- The punctuation characters stripped by normalizeTargetText's second regex
(escaped characters: \x22 is the double quote, \x27 the apostrophe, \x7b and
\x7d the curly braces). -/
def STRIPPED_PUNCT : String := "，,。．.!！？?、;；:：·“”\x22‘’\x27（）()【】[]\x7b\x7d<>《》-"

/-- Source: normalizeTargetText removes whitespace and common punctuation;
Array.from splits into code points, which List Char mirrors. -/
def normalizeTargetText (text : String) : List Char :=
  text.toList.filter (fun c => !(c.isWhitespace || STRIPPED_PUNCT.toList.contains c))

/-- Source: LEVEL_TARGET_TEXTS[Math.max(1, Math.min(3, level))] ?? LEVEL_TARGET_TEXTS[1]. -/
def getTargetTextForLevel (level : ℤ) : String :=
  (LEVEL_TARGET_TEXTS (max 1 (min 3 level))).getD ((LEVEL_TARGET_TEXTS 1).getD "")

def getTargetCharsForLevel (level : ℤ) : List Char :=
  normalizeTargetText (getTargetTextForLevel level)

def TARGET_PALETTE : List String :=
  ["#2979ff", "#ff1744", "#ffea00", "#00e676", "#b388ff", "#00ffff"]

/-- Source: chars.map((_, idx) => TARGET_PALETTE[idx % TARGET_PALETTE.length]). -/
def getTargetColorsForLevel (level : ℤ) : List String :=
  (getTargetCharsForLevel level).mapIdx
    (fun idx _ => TARGET_PALETTE.getD (idx % TARGET_PALETTE.length) "")

/-! The game-state store (src/store.ts).  Fields as in the GameState
interface; actions below are the store's mutation actions. -/

structure GameState where
  status : GameStatus
  score : ℤ
  lives : ℤ
  maxLives : ℤ
  speed : ℚ
  collectedLetters : List ℕ
  level : ℤ
  laneCount : ℤ
  gemsCollected : ℤ
  distance : ℚ
  isImmortalityActive : Bool
  immortalityEndsAt : ℚ
deriving DecidableEq

/-- The store's creation-time initial values. -/
def initialState : GameState :=
  { status := GameStatus.MENU, score := 0, lives := 3, maxLives := 3, speed := 0,
    collectedLetters := [], level := 1, laneCount := 3, gemsCollected := 0,
    distance := 0, isImmortalityActive := false, immortalityEndsAt := 0 }

def startGame (s : GameState) : GameState :=
  { s with
    status := GameStatus.PLAYING, score := 0, lives := 3, maxLives := 3,
    speed := RUN_SPEED_BASE, collectedLetters := [], level := 1, laneCount := 3,
    gemsCollected := 0, distance := 0, isImmortalityActive := false,
    immortalityEndsAt := 0 }

def restartGame (s : GameState) : GameState :=
  { s with
    status := GameStatus.PLAYING, score := 0, lives := 3, maxLives := 3,
    speed := RUN_SPEED_BASE, collectedLetters := [], level := 1, laneCount := 3,
    gemsCollected := 0, distance := 0, isImmortalityActive := false,
    immortalityEndsAt := 0 }

def takeDamage (s : GameState) : GameState :=
  if s.isImmortalityActive then s
  else if s.lives > 1 then { s with lives := s.lives - 1 }
  else { s with lives := 0, status := GameStatus.GAME_OVER, speed := 0 }

def addScore (amount : ℤ) (s : GameState) : GameState :=
  { s with score := s.score + amount }

def collectGem (value : ℤ) (s : GameState) : GameState :=
  { s with score := s.score + value, gemsCollected := s.gemsCollected + 1 }

def healOne (s : GameState) : GameState :=
  if s.lives ≥ s.maxLives then s
  else { s with lives := min (s.lives + 1) s.maxLives }

def setDistance (dist : ℚ) (s : GameState) : GameState :=
  { s with distance := dist }

/-- Source: advanceLevel adds RUN_SPEED_BASE * 0.40 * DIFFICULTY_MULT to speed,
keeps laneCount odd and capped at 9, resets collected letters. -/
def advanceLevel (s : GameState) : GameState :=
  { s with
    level := s.level + 1,
    laneCount := min (makeOdd (s.laneCount + 1)) 9,
    status := GameStatus.PLAYING,
    speed := s.speed + RUN_SPEED_BASE * (2/5) * DIFFICULTY_MULT,
    collectedLetters := [] }

/-- Source: collectLetter; per-letter increment is
RUN_SPEED_BASE * ((LETTER_SPEED_TOTAL_FRACTION * DIFFICULTY_MULT) / Math.max(1, targetLen)). -/
def collectLetter (index : ℕ) (s : GameState) : GameState :=
  let targetLen := (getTargetCharsForLevel s.level).length
  if index ∈ s.collectedLetters then s
  else
    let newLetters := s.collectedLetters ++ [index]
    let perLetter :=
      RUN_SPEED_BASE * ((LETTER_SPEED_TOTAL_FRACTION * DIFFICULTY_MULT) / max 1 (targetLen : ℚ))
    let s1 := { s with collectedLetters := newLetters, speed := s.speed + perLetter }
    if newLetters.length = targetLen then
      if s1.level < MAX_LEVEL then advanceLevel s1
      else { s1 with status := GameStatus.VICTORY, score := s1.score + 5000 }
    else s1

/-- Source: activateImmortality sets the flag and an end timestamp 5000 ms
ahead; a no-op when already active.  The pending expiry timer is modelled by
the timed layer further below. -/
def activateImmortality (now : ℚ) (s : GameState) : GameState :=
  if s.isImmortalityActive then s
  else { s with isImmortalityActive := true, immortalityEndsAt := now + 5000 }

/-! The store actions as driven by the running system.  The LevelManager frame
loop returns immediately unless status is PLAYING, so every collision-driven
action (damage, pickups, letter collection and the level advance it triggers)
only ever fires while PLAYING; the menu screen calls startGame only from MENU,
and the remote start command maps to startGame in MENU and restartGame in any
other status. -/

inductive Act
  | startGame
  | restartGame
  | takeDamage
  | addScore (amount : ℤ)
  | collectGem (value : ℤ)
  | collectLetter (index : ℕ)
  | healOne
  | advanceLevel
  | activateImmortality (now : ℚ)
deriving DecidableEq

def drivenStep (a : Act) (s : GameState) : GameState :=
  match a with
  | Act.startGame => if s.status = GameStatus.MENU then startGame s else s
  | Act.restartGame => if s.status = GameStatus.MENU then s else restartGame s
  | Act.takeDamage => if s.status = GameStatus.PLAYING then takeDamage s else s
  | Act.addScore amount => if s.status = GameStatus.PLAYING then addScore amount s else s
  | Act.collectGem value => if s.status = GameStatus.PLAYING then collectGem value s else s
  | Act.collectLetter index =>
      if s.status = GameStatus.PLAYING then collectLetter index s else s
  | Act.healOne => if s.status = GameStatus.PLAYING then healOne s else s
  | Act.advanceLevel => if s.status = GameStatus.PLAYING then advanceLevel s else s
  | Act.activateImmortality now =>
      if s.status = GameStatus.PLAYING then activateImmortality now s else s

def run (acts : List Act) (s : GameState) : GameState :=
  acts.foldl (fun t a => drivenStep a t) s

/-- All states visited while running acts, the start state included. -/
def runTrace (acts : List Act) (s : GameState) : List GameState :=
  acts.scanl (fun t a => drivenStep a t) s

/-! World objects and the per-tick simulation loop (LevelManager).  The
player's world position is an external input read once per tick. -/

inductive ObjectType
  | OBSTACLE
  | GEM
  | LETTER
  | IMMORTALITY
  | HEART
  | ALIEN
  | MISSILE
deriving DecidableEq

/-- A spawned world entity (src/types.ts, GameObject).  The random uuid ids of
the source are modelled as natural numbers handed out sequentially. -/
structure GameObject where
  id : ℕ
  type : ObjectType
  posX : ℚ
  posY : ℚ
  posZ : ℚ
  active : Bool
  value : Option Char := none
  color : Option String := none
  targetIndex : Option ℕ := none
  points : Option ℤ := none
  hasFired : Option Bool := none
deriving DecidableEq

structure Vec3 where
  x : ℚ
  y : ℚ
  z : ℚ
deriving DecidableEq

/-- Outward effects of one tick: the player-hit window event, the advisory
particle bursts, and the store actions invoked for pickups. -/
inductive Effect
  | playerHit
  | particleBurst (x y z : ℚ) (color : String)
  | gemPickup (points : ℤ)
  | letterPickup (idx : ℕ)
  | immortalityPickup
  | heartPickup
deriving DecidableEq

/-- True for the effects that reach gameplay (hit signal and store pickups);
particle bursts are advisory to the rendering layer only. -/
def Effect.isGameplay : Effect → Bool
  | Effect.particleBurst _ _ _ _ => false
  | _ => true

def OBSTACLE_HEIGHT : ℚ := 8/5

def MISSILE_SPEED : ℚ := 30 * DIFFICULTY_MULT

def Z_THRESHOLD : ℚ := 2

def BASE_LETTER_INTERVAL : ℚ := 150

/-- Source: getLetterInterval = BASE_LETTER_INTERVAL * Math.pow(1.5, Math.max(0, level - 1)). -/
def getLetterInterval (level : ℤ) : ℚ :=
  BASE_LETTER_INTERVAL * (3/2) ^ (max 0 (level - 1)).toNat

/-- Source: Math.floor(Math.random() * (max * 2 + 1)) - max with
max = Math.floor(laneCount / 2); the random draw is the roll argument. -/
def getRandomLane (laneCount : ℤ) (roll : ℚ) : ℤ :=
  let m : ℤ := Int.floor ((laneCount : ℚ) / 2)
  Int.floor (roll * ((m * 2 + 1 : ℤ) : ℚ)) - m

/-- Missiles move with the world plus their own propulsion. -/
def moveAmountFor (dist sd : ℚ) (o : GameObject) : ℚ :=
  if o.type = ObjectType.MISSILE then dist + MISSILE_SPEED * sd else dist

/-- The missile spawned by a firing alien: alien's lane, y = 1.0, two units
ahead of the alien along the scroll axis. -/
def missileFrom (nid : ℕ) (alien : GameObject) : GameObject :=
  { id := nid, type := ObjectType.MISSILE,
    posX := alien.posX, posY := 1, posZ := alien.posZ + 2,
    active := true, color := some "#ff0000" }

/-- The swept collision window: the object's pre-move and post-move scroll
coordinates against a fixed-width zone around the player's scroll position. -/
def inZZoneB (prevZ newZ pz : ℚ) : Bool :=
  decide (prevZ < pz + Z_THRESHOLD) && decide (newZ > pz - Z_THRESHOLD)

/-- Source: obj.points || 50 (JS falsy zero falls back to 50). -/
def pointsOrDefault (o : GameObject) : ℤ :=
  match o.points with
  | some p => if p = 0 then 50 else p
  | none => 50

/-- Movement: advance the scroll coordinate by the tick's move amount. -/
def movedObj (dist sd : ℚ) (o : GameObject) : GameObject :=
  { o with posZ := o.posZ + moveAmountFor dist sd o }

/-- The alien fire condition, checked on the post-move object: an active Alien
that has not fired yet (JS truthiness: an absent hasFired counts as not fired)
whose scroll coordinate has crossed the -90 proximity threshold. -/
def firesB (dist sd : ℚ) (o : GameObject) : Bool :=
  decide (o.type = ObjectType.ALIEN) && o.active && decide (o.hasFired ≠ some true)
    && decide (o.posZ + moveAmountFor dist sd o > -90)

/-- The object after movement and the alien fire mark. -/
def afterFireObj (dist sd : ℚ) (o : GameObject) : GameObject :=
  if firesB dist sd o then { movedObj dist sd o with hasFired := some true }
  else movedObj dist sd o

/-- The swept collision test and resolution for one post-move object, given
its pre-move scroll coordinate.  Inactive objects are skipped entirely. -/
def collideObj (player : Vec3) (prevZ : ℚ) (o : GameObject) : GameObject × List Effect :=
  if o.active then
    if inZZoneB prevZ o.posZ player.z then
      if decide (|o.posX - player.x| < 9/10) then
        if decide (o.type = ObjectType.OBSTACLE) || decide (o.type = ObjectType.ALIEN)
            || decide (o.type = ObjectType.MISSILE) then
          let playerBottom := player.y
          let playerTop := player.y + 9/5
          let objBottom :=
            if o.type = ObjectType.OBSTACLE then 0
            else if o.type = ObjectType.MISSILE then 1/2
            else o.posY - 1/2
          let objTop :=
            if o.type = ObjectType.OBSTACLE then OBSTACLE_HEIGHT
            else if o.type = ObjectType.MISSILE then 3/2
            else o.posY + 1/2
          if decide (playerBottom < objTop) && decide (playerTop > objBottom) then
            ({ o with active := false },
             [Effect.playerHit] ++
               (if o.type = ObjectType.MISSILE then
                 [Effect.particleBurst o.posX o.posY o.posZ "#ff4400"]
                else []))
          else (o, [])
        else
          if decide (|o.posY - player.y| < 5/2) then
            let pickups : List Effect :=
              (if o.type = ObjectType.GEM then [Effect.gemPickup (pointsOrDefault o)] else [])
              ++ (if o.type = ObjectType.LETTER then
                    match o.targetIndex with
                    | some idx => [Effect.letterPickup idx]
                    | none => []
                  else [])
              ++ (if o.type = ObjectType.IMMORTALITY then [Effect.immortalityPickup] else [])
              ++ (if o.type = ObjectType.HEART then [Effect.heartPickup] else [])
            ({ o with active := false },
             pickups ++ [Effect.particleBurst o.posX o.posY o.posZ (o.color.getD "#ffffff")])
          else (o, [])
      else (o, [])
    else (o, [])
  else (o, [])

/-- One loop iteration of the simulation step for a single object: movement,
alien fire decision, swept collision detection and resolution.  Returns the
updated object, whether it fired a missile this tick, and the effects in
emission order (fire burst first, as in the source). -/
def procObj (player : Vec3) (dist sd : ℚ) (o : GameObject) : GameObject × Bool × List Effect :=
  let a := afterFireObj dist sd o
  let fireEffs : List Effect :=
    if firesB dist sd o then [Effect.particleBurst a.posX a.posY a.posZ "#ff00ff"] else []
  ((collideObj player o.posZ a).1, firesB dist sd o,
   fireEffs ++ (collideObj player o.posZ a).2)

/-- The whole movement/collision/culling pass over the registry, in registry
order.  Returns the kept objects, the missiles spawned this tick (appended to
the registry after the loop, as in the source), the effects in emission order,
and the next fresh id. -/
def simLoop (player : Vec3) (dist sd : ℚ) :
    List GameObject → ℕ → List GameObject × List GameObject × List Effect × ℕ
  | [], nid => ([], [], [], nid)
  | o :: rest, nid =>
    let o2 := (procObj player dist sd o).1
    let fired := (procObj player dist sd o).2.1
    let effs := (procObj player dist sd o).2.2
    let nid1 := if fired then nid + 1 else nid
    let missileHere : List GameObject := if fired then [missileFrom nid o2] else []
    let r := simLoop player dist sd rest nid1
    ((if decide (o2.posZ > REMOVE_DISTANCE) then [] else [o2]) ++ r.1,
     missileHere ++ r.2.1, effs ++ r.2.2.1, r.2.2.2)

/-! The spawn scheduler (second half of the LevelManager tick).  Every
Math.random() draw and the random-comparator lane shuffle are oracle inputs. -/

structure Oracle where
  laneRoll : ℚ
  pickRoll : ℚ
  skipRoll : ℚ
  typeRoll : ℚ
  alienRoll : ℚ
  countRoll : ℚ
  shuffle : List ℤ → List ℤ
  gemTopRoll : ℕ → ℚ

/-- Distance-based spawn trackers held in refs by the LevelManager. -/
structure SpawnState where
  distanceTraveled : ℚ
  nextLetterDistance : ℚ
  nextImmortalityDistance : ℚ
deriving DecidableEq

/-- Non-missile objects define the gap to the farthest-downrange object. -/
def furthestZOf (objs : List GameObject) : ℚ :=
  let staticObjects := objs.filter (fun o => decide (o.type ≠ ObjectType.MISSILE))
  match staticObjects.map (fun o => o.posZ) with
  | [] => -20
  | z :: zs => zs.foldl min z

/-- The lane list -maxLane..maxLane built before the shuffle. -/
def laneRangeList (maxLane : ℤ) : List ℤ :=
  (List.range (2 * maxLane + 1).toNat).map (fun k => (k : ℤ) - maxLane)

/-- Target-character indices not yet collected this level. -/
def availableIndicesFor (level : ℤ) (collected : List ℕ) : List ℕ :=
  (List.range (getTargetCharsForLevel level).length).filter (fun i => decide (i ∉ collected))

/-- Alien formation spawns on the first count shuffled lanes. -/
def alienSpawns (lanes : List ℤ) (count : ℕ) (spawnZ : ℚ) (nid : ℕ) : List GameObject :=
  (List.range count).map (fun k =>
    { id := nid + k, type := ObjectType.ALIEN,
      posX := ((lanes.getD k 0 : ℤ) : ℚ) * LANE_WIDTH, posY := 3/2, posZ := spawnZ,
      active := true, color := some "#00ff00", hasFired := some false })

/-- Spike obstacles on the first count shuffled lanes, each with a 30% chance
of a bonus gem on top (per-index gem roll). -/
def spikeSpawns (lanes : List ℤ) (spawnZ : ℚ) (gemTopRoll : ℕ → ℚ) :
    ℕ → ℕ → ℕ → List GameObject
  | _, 0, _ => []
  | i, c + 1, nid =>
    let laneX := ((lanes.getD i 0 : ℤ) : ℚ) * LANE_WIDTH
    let obst : GameObject :=
      { id := nid, type := ObjectType.OBSTACLE,
        posX := laneX, posY := OBSTACLE_HEIGHT / 2, posZ := spawnZ,
        active := true, color := some "#ff0054" }
    if gemTopRoll i < 3/10 then
      obst ::
        { id := nid + 1, type := ObjectType.GEM,
          posX := laneX, posY := OBSTACLE_HEIGHT + 1, posZ := spawnZ,
          active := true, color := some "#ffd700", points := some 100 } ::
        spikeSpawns lanes spawnZ gemTopRoll (i + 1) c (nid + 2)
    else
      obst :: spikeSpawns lanes spawnZ gemTopRoll (i + 1) c (nid + 1)

/-- The letter-due branch of the scheduler: spawn the next uncollected target
character at a random lane and advance the next-letter counter, or a fallback
gem (with the counter left as is) when every character is collected. -/
def spawnLetterDue (rand : Oracle) (level laneCount : ℤ) (collected : List ℕ)
    (ss : SpawnState) (nid : ℕ) (spawnZ : ℚ) : List GameObject × SpawnState × ℕ :=
  let lane := getRandomLane laneCount rand.laneRoll
  let targetChars := getTargetCharsForLevel level
  let targetColors := getTargetColorsForLevel level
  let availableIndices := availableIndicesFor level collected
  if availableIndices.length > 0 then
    let chosenIndex :=
      availableIndices.getD (Int.floor (rand.pickRoll * (availableIndices.length : ℚ))).toNat 0
    ([{ id := nid, type := ObjectType.LETTER,
        posX := (lane : ℚ) * LANE_WIDTH, posY := 1, posZ := spawnZ, active := true,
        color := targetColors.get? chosenIndex, value := targetChars.get? chosenIndex,
        targetIndex := some chosenIndex }],
     { ss with nextLetterDistance := ss.nextLetterDistance + getLetterInterval level },
     nid + 1)
  else
    ([{ id := nid, type := ObjectType.GEM,
        posX := (lane : ℚ) * LANE_WIDTH, posY := 6/5, posZ := spawnZ, active := true,
        color := some "#00ffff", points := some 50 }],
     ss, nid + 1)

/-- The weighted-random branch of the scheduler: immortality power-up (with
distance cooldown), heart (only below full health), obstacle class (aliens on
level 2+ or spikes, optionally gem-topped), or a ground gem. -/
def spawnWeighted (rand : Oracle) (level laneCount lives maxLives : ℤ)
    (ss : SpawnState) (nid : ℕ) (spawnZ : ℚ) : List GameObject × SpawnState × ℕ :=
  let r := rand.typeRoll
  let canSpawnImmortality := ss.distanceTraveled ≥ ss.nextImmortalityDistance
  let immortalityChance : ℚ := if level = 1 then 7/200 else 3/50
  let isPowerup := canSpawnImmortality ∧ r < immortalityChance
  let isHeartCandidate := ¬isPowerup ∧ r < 1/10
  let isHeart := isHeartCandidate ∧ lives < maxLives
  let isObstacle := ¬isPowerup ∧ ¬isHeart ∧ r > 9/25
  if isPowerup then
    let lane := getRandomLane laneCount rand.laneRoll
    ([{ id := nid, type := ObjectType.IMMORTALITY,
        posX := (lane : ℚ) * LANE_WIDTH, posY := 5/4, posZ := spawnZ, active := true,
        color := some "#b026ff", points := some 0 }],
     { ss with nextImmortalityDistance :=
         ss.distanceTraveled + (if level = 1 then 220 else 160) },
     nid + 1)
  else if isHeart then
    let lane := getRandomLane laneCount rand.laneRoll
    ([{ id := nid, type := ObjectType.HEART,
        posX := (lane : ℚ) * LANE_WIDTH, posY := 23/20, posZ := spawnZ, active := true,
        color := some "#ff2d55" }],
     ss, nid + 1)
  else if isObstacle then
    let spawnAlien := 2 ≤ level ∧ rand.alienRoll < (1/5) * DIFFICULTY_MULT
    let maxLane : ℤ := Int.floor ((laneCount : ℚ) / 2)
    let availableLanes := rand.shuffle (laneRangeList maxLane)
    if spawnAlien then
      let c1 := if rand.countRoll > 7/10 then min 2 availableLanes.length else 1
      let alienCount :=
        if rand.countRoll > 9/10 ∧ 3 ≤ availableLanes.length then 3 else c1
      (alienSpawns availableLanes alienCount spawnZ nid, ss, nid + alienCount)
    else
      let countToSpawn :=
        if rand.countRoll > 17/20 then min 3 availableLanes.length
        else if rand.countRoll > 3/5 then min 2 availableLanes.length
        else 1
      (spikeSpawns availableLanes spawnZ rand.gemTopRoll 0 countToSpawn nid,
       ss, nid + 2 * countToSpawn)
  else
    let lane := getRandomLane laneCount rand.laneRoll
    ([{ id := nid, type := ObjectType.GEM,
        posX := (lane : ℚ) * LANE_WIDTH, posY := 6/5, posZ := spawnZ, active := true,
        color := some "#00ffff", points := some 50 }],
     ss, nid + 1)

/-- The spawn scheduler: runs right after movement/collision in the same tick,
on the registry already holding this tick's kept objects and missiles.
Returns the objects to append, the updated spawn trackers, and the next id. -/
def spawnPhase (rand : Oracle) (level laneCount lives maxLives : ℤ) (speed : ℚ)
    (collected : List ℕ) (ss : SpawnState) (nid : ℕ) (kept : List GameObject) :
    List GameObject × SpawnState × ℕ :=
  let furthestZ := furthestZOf kept
  if furthestZ > -SPAWN_DISTANCE then
    let minGap := 12 + speed * (2/5)
    let spawnZ := min (furthestZ - minGap) (-SPAWN_DISTANCE)
    if ss.distanceTraveled ≥ ss.nextLetterDistance then
      spawnLetterDue rand level laneCount collected ss nid spawnZ
    else if rand.skipRoll > 1/10 then
      spawnWeighted rand level laneCount lives maxLives ss nid spawnZ
    else ([], ss, nid)
  else ([], ss, nid)

/-- One full simulation tick while PLAYING: clamp the frame delta, advance the
traveled distance, run movement/collision/culling, append the spawned
missiles, then run the spawn scheduler on the resulting registry.  Returns the
new registry, spawn trackers, next id and this tick's effects. -/
def fullTick (rand : Oracle) (player : Vec3) (level laneCount lives maxLives : ℤ)
    (speed : ℚ) (collected : List ℕ) (delta : ℚ) (ss : SpawnState) (nid : ℕ)
    (objs : List GameObject) : List GameObject × SpawnState × ℕ × List Effect :=
  let safeDelta := min delta (1/20)
  let dist := speed * safeDelta
  let ss1 := { ss with distanceTraveled := ss.distanceTraveled + dist }
  let r := simLoop player dist safeDelta objs nid
  let keptAll := r.1 ++ r.2.1
  let sp := spawnPhase rand level laneCount lives maxLives speed collected ss1 r.2.2.2 keptAll
  (keptAll ++ sp.1, sp.2.1, sp.2.2, r.2.2.1)

/-! The wall-clock timer layer for the immortality buff.  activateImmortality
schedules a setTimeout that, 5000 ms later, unconditionally clears the flag;
restartGame resets the store fields but does not cancel pending timers. -/

/-- The body of the expiry callback in activateImmortality. -/
def clearImmortality (s : GameState) : GameState :=
  { s with isImmortalityActive := false, immortalityEndsAt := 0 }

structure TimedState where
  game : GameState
  now : ℚ
  pendingClears : List ℚ
deriving DecidableEq

def timedActivate (ts : TimedState) : TimedState :=
  if ts.game.isImmortalityActive then ts
  else
    { ts with
      game := activateImmortality ts.now ts.game,
      pendingClears := ts.pendingClears ++ [ts.now + 5000] }

/-- Hard reset: the store fields are reset, the pending timers are left alone
(the source neither cancels them nor guards the callback with a session or
generation check). -/
def timedRestart (ts : TimedState) : TimedState :=
  { ts with game := restartGame ts.game }

/-- Let wall-clock time pass; every pending timer whose deadline has been
reached fires its (unconditional) clear callback and is consumed. -/
def timedElapse (dt : ℚ) (ts : TimedState) : TimedState :=
  let now2 := ts.now + dt
  let dueFires := ts.pendingClears.filter (fun t => decide (t ≤ now2))
  { game := if 0 < dueFires.length then clearImmortality ts.game else ts.game,
    now := now2,
    pendingClears := ts.pendingClears.filter (fun t => decide (¬ t ≤ now2)) }

/-! Concrete scenario inputs used by the theorems below. -/

/-- The state invariant of the lives/game-over claim. -/
def LivesInv (s : GameState) : Prop :=
  0 ≤ s.lives ∧ s.lives ≤ s.maxLives ∧
  (s.status = GameStatus.GAME_OVER → s.lives = 0 ∧ s.speed = 0)

/-- Fresh session followed by collecting all eight level-1 target characters
in order. -/
def c3Acts : List Act :=
  [Act.startGame, Act.collectLetter 0, Act.collectLetter 1, Act.collectLetter 2,
   Act.collectLetter 3, Act.collectLetter 4, Act.collectLetter 5, Act.collectLetter 6,
   Act.collectLetter 7]

def playerOrigin : Vec3 := { x := 0, y := 0, z := 0 }

/-- An obstacle five units downrange of the player; the spec measures scroll
position in the approach frame, where this is scroll coordinate 5 (world
z = -5), and a post-tick scroll coordinate of -1 is world z = 1. -/
def obstacleCross : GameObject :=
  { id := 1, type := ObjectType.OBSTACLE, posX := 0, posY := OBSTACLE_HEIGHT / 2,
    posZ := -5, active := true, color := some "#ff0054" }

def gemCross : GameObject :=
  { id := 2, type := ObjectType.GEM, posX := 0, posY := 6/5, posZ := -5,
    active := true, color := some "#00ffff", points := some 50 }

/-- Oracle whose rolls make the scheduler's probabilistic cascade spawn
nothing. -/
def noSpawnOracle : Oracle :=
  { laneRoll := 0, pickRoll := 0, skipRoll := 0, typeRoll := 0, alienRoll := 0,
    countRoll := 0, shuffle := fun l => l, gemTopRoll := fun _ => 1 }

def c4Obstacle : GameObject :=
  { id := 7, type := ObjectType.OBSTACLE, posX := 0, posY := OBSTACLE_HEIGHT / 2,
    posZ := -1, active := true, color := some "#ff0054" }

def c4SpawnState : SpawnState :=
  { distanceTraveled := 0, nextLetterDistance := 1000000, nextImmortalityDistance := 0 }

def c4Tick1 : List GameObject × SpawnState × ℕ × List Effect :=
  fullTick noSpawnOracle playerOrigin 1 3 3 3 20 [] (1/20) c4SpawnState 100 [c4Obstacle]

def c4Tick2 : List GameObject × SpawnState × ℕ × List Effect :=
  fullTick noSpawnOracle playerOrigin 1 3 3 3 20 [] (1/20) c4Tick1.2.1 c4Tick1.2.2.1 c4Tick1.1

/-- Spawn trackers with a letter due. -/
def c7SpawnState : SpawnState :=
  { distanceTraveled := 200, nextLetterDistance := 150, nextImmortalityDistance := 0 }

/-- All eight level-1 target indices already collected. -/
def c7AllCollected : List ℕ := [0, 1, 2, 3, 4, 5, 6, 7]

def c7Result : List GameObject × SpawnState × ℕ :=
  spawnPhase noSpawnOracle 1 3 3 3 (45/2) c7AllCollected c7SpawnState 50 []

/-- Stale-timer scenario: activate at t=0, hard reset at t=2000, activate the
new session's buff at t=3000 (its own expiry is t=8000), then let the stale
t=5000 timer fire. -/
def c5Start : TimedState := { game := startGame initialState, now := 0, pendingClears := [] }

def c5BeforeStaleFire : TimedState :=
  timedActivate (timedElapse 1000 (timedRestart (timedElapse 2000 (timedActivate c5Start))))

def c5AfterStaleFire : TimedState := timedElapse 2000 c5BeforeStaleFire

/-- A playing state with speed above base, reached by collecting one letter. -/
def c8Before : GameState := run [Act.startGame, Act.collectLetter 0] initialState

def c8After : GameState := drivenStep Act.restartGame c8Before

/-- Start then three unprotected hits: reaches GAME_OVER through PLAYING. -/
def c9Acts : List Act := [Act.startGame, Act.takeDamage, Act.takeDamage, Act.takeDamage]
/-! Helper lemmas for the driven store runs. -/

theorem run_cons (a : Act) (acts : List Act) (s : GameState) :
    run (a :: acts) s = run acts (drivenStep a s) := rfl

theorem runTrace_cons (a : Act) (acts : List Act) (s : GameState) :
    runTrace (a :: acts) s = s :: runTrace acts (drivenStep a s) := by
  simp [runTrace, List.scanl]

theorem self_mem_runTrace (acts : List Act) (s : GameState) : s ∈ runTrace acts s := by
  cases acts <;> simp [runTrace, List.scanl]

theorem drivenStep_LivesInv (a : Act) (s : GameState) (h : LivesInv s) :
    LivesInv (drivenStep a s) := by
  obtain ⟨h1, h2, h3⟩ := h
  cases a <;>
    simp only [drivenStep, LivesInv, startGame, restartGame, takeDamage, addScore, collectGem,
      collectLetter, healOne, advanceLevel, activateImmortality] <;>
    split_ifs <;>
    simp_all <;>
    omega

theorem run_LivesInv (acts : List Act) (s : GameState) (h : LivesInv s) :
    LivesInv (run acts s) := by
  induction acts generalizing s with
  | nil => exact h
  | cons a rest ih => exact ih _ (drivenStep_LivesInv a s h)

theorem menuStep_status (a : Act) (s : GameState) (hs : s.status = GameStatus.MENU) :
    (drivenStep a s).status = GameStatus.MENU ∨ (drivenStep a s).status = GameStatus.PLAYING := by
  cases a <;> simp [drivenStep, hs, startGame]

theorem menu_path_playing (acts : List Act) (s : GameState) (hs : s.status = GameStatus.MENU)
    (hterm : (run acts s).status = GameStatus.GAME_OVER ∨
      (run acts s).status = GameStatus.VICTORY) :
    GameStatus.PLAYING ∈ (runTrace acts s).map GameState.status := by
  induction acts generalizing s with
  | nil =>
    simp only [run, List.foldl] at hterm
    rcases hterm with h | h <;> rw [hs] at h <;> cases h
  | cons a rest ih =>
    rw [runTrace_cons, List.map_cons]
    rcases menuStep_status a s hs with hmenu | hplay
    · exact List.mem_cons_of_mem _ (ih (drivenStep a s) hmenu (by rwa [run_cons] at hterm))
    · exact List.mem_cons_of_mem _
        (List.mem_map.mpr ⟨drivenStep a s, self_mem_runTrace _ _, hplay⟩)

theorem perLetter_pos (n : ℕ) :
    0 < RUN_SPEED_BASE * ((LETTER_SPEED_TOTAL_FRACTION * DIFFICULTY_MULT) / max 1 (n : ℚ)) := by
  apply mul_pos
  · norm_num [RUN_SPEED_BASE]
  · apply div_pos
    · norm_num [LETTER_SPEED_TOTAL_FRACTION, DIFFICULTY_MULT]
    · have h := le_max_left (1 : ℚ) (n : ℚ)
      linarith

theorem advanceLevel_speed_lt (s : GameState) : s.speed < (advanceLevel s).speed := by
  simp only [advanceLevel]
  norm_num [RUN_SPEED_BASE, DIFFICULTY_MULT]

theorem collectLetter_speed_le (index : ℕ) (s : GameState) :
    s.speed ≤ (collectLetter index s).speed := by
  have hp := perLetter_pos (getTargetCharsForLevel s.level).length
  have hq : (0 : ℚ) < RUN_SPEED_BASE * (2/5) * DIFFICULTY_MULT := by
    norm_num [RUN_SPEED_BASE, DIFFICULTY_MULT]
  simp only [collectLetter]
  split_ifs
  all_goals try simp only [advanceLevel]
  all_goals linarith

theorem collectLetter_speed_lt (index : ℕ) (s : GameState)
    (hnew : index ∉ s.collectedLetters) :
    s.speed < (collectLetter index s).speed := by
  have hp := perLetter_pos (getTargetCharsForLevel s.level).length
  have hq : (0 : ℚ) < RUN_SPEED_BASE * (2/5) * DIFFICULTY_MULT := by
    norm_num [RUN_SPEED_BASE, DIFFICULTY_MULT]
  simp only [collectLetter]
  split_ifs
  all_goals first
    | exact absurd (by assumption) hnew
    | (try simp only [advanceLevel]); linarith

theorem drivenStep_speed_mono (a : Act) (s : GameState)
    (ha1 : a ≠ Act.startGame) (ha2 : a ≠ Act.restartGame)
    (hs : s.status = GameStatus.PLAYING)
    (hp : (drivenStep a s).status = GameStatus.PLAYING) :
    s.speed ≤ (drivenStep a s).speed := by
  cases a with
  | startGame => exact absurd rfl ha1
  | restartGame => exact absurd rfl ha2
  | takeDamage =>
    simp only [drivenStep, hs, if_true, takeDamage] at hp ⊢
    split_ifs at hp ⊢ <;> simp_all
  | collectLetter index =>
    simp only [drivenStep, hs, if_true]
    exact collectLetter_speed_le index s
  | advanceLevel =>
    simp only [drivenStep, hs, if_true]
    exact le_of_lt (advanceLevel_speed_lt s)
  | addScore amount => simp [drivenStep, hs, addScore]
  | collectGem value => simp [drivenStep, hs, collectGem]
  | healOne =>
    simp only [drivenStep, hs, if_true, healOne]
    split_ifs <;> simp
  | activateImmortality now =>
    simp only [drivenStep, hs, if_true, activateImmortality]
    split_ifs <;> simp

theorem run_speed_mono (acts : List Act) (s : GameState)
    (hs : s.status = GameStatus.PLAYING)
    (htr : ∀ t ∈ runTrace acts s, t.status = GameStatus.PLAYING)
    (hna : ∀ a ∈ acts, a ≠ Act.startGame ∧ a ≠ Act.restartGame) :
    s.speed ≤ (run acts s).speed := by
  induction acts generalizing s with
  | nil => exact le_refl _
  | cons a rest ih =>
    have hstep : (drivenStep a s).status = GameStatus.PLAYING := by
      apply htr
      rw [runTrace_cons]
      exact List.mem_cons_of_mem _ (self_mem_runTrace _ _)
    have h1 := drivenStep_speed_mono a s (hna a (List.mem_cons_self _ _)).1
      (hna a (List.mem_cons_self _ _)).2 hs hstep
    have h2 := ih (drivenStep a s) hstep
      (fun t ht => htr t (by rw [runTrace_cons]; exact List.mem_cons_of_mem _ ht))
      (fun b hb => hna b (List.mem_cons_of_mem _ hb))
    rw [run_cons]
    linarith
/-! Structural lemmas about the per-object simulation step. -/

theorem collideObj_fst (player : Vec3) (prevZ : ℚ) (o : GameObject) :
    (collideObj player prevZ o).1 = o ∨
      (collideObj player prevZ o).1 = { o with active := false } := by
  simp only [collideObj]
  split_ifs <;> simp

theorem collideObj_preserves (player : Vec3) (prevZ : ℚ) (o : GameObject) :
    (collideObj player prevZ o).1.id = o.id ∧
    (collideObj player prevZ o).1.type = o.type ∧
    (collideObj player prevZ o).1.posX = o.posX ∧
    (collideObj player prevZ o).1.posY = o.posY ∧
    (collideObj player prevZ o).1.posZ = o.posZ ∧
    (collideObj player prevZ o).1.hasFired = o.hasFired := by
  rcases collideObj_fst player prevZ o with h | h <;> rw [h] <;>
    exact ⟨rfl, rfl, rfl, rfl, rfl, rfl⟩

theorem collideObj_effects_zone (player : Vec3) (prevZ : ℚ) (o : GameObject)
    (h : (collideObj player prevZ o).2 ≠ []) :
    inZZoneB prevZ o.posZ player.z = true := by
  simp only [collideObj] at h
  split_ifs at h <;> simp_all

theorem afterFireObj_posZ (dist sd : ℚ) (o : GameObject) :
    (afterFireObj dist sd o).posZ = o.posZ + moveAmountFor dist sd o := by
  simp only [afterFireObj]
  split_ifs <;> rfl

theorem procObj_fired_eq (player : Vec3) (dist sd : ℚ) (o : GameObject) :
    (procObj player dist sd o).2.1 = firesB dist sd o := rfl

theorem procObj_gameplay_zone (player : Vec3) (dist sd : ℚ) (o : GameObject)
    (h : ((procObj player dist sd o).2.2.any Effect.isGameplay) = true) :
    inZZoneB o.posZ (o.posZ + moveAmountFor dist sd o) player.z = true := by
  have h2 : (collideObj player o.posZ (afterFireObj dist sd o)).2 ≠ [] := by
    intro hnil
    simp only [procObj, hnil, List.append_nil] at h
    revert h
    split_ifs <;> simp [Effect.isGameplay]
  have h3 := collideObj_effects_zone player o.posZ (afterFireObj dist sd o) h2
  rwa [afterFireObj_posZ] at h3

theorem procObj_inactive (player : Vec3) (dist sd : ℚ) (o : GameObject)
    (h : o.active = false) :
    procObj player dist sd o = (movedObj dist sd o, false, []) := by
  have hf : firesB dist sd o = false := by simp [firesB, h]
  have ha : afterFireObj dist sd o = movedObj dist sd o := by simp [afterFireObj, hf]
  have hact : (movedObj dist sd o).active = false := h
  simp only [procObj, hf, ha, collideObj, hact]
  simp

theorem procObj_hasFired_mono (player : Vec3) (dist sd : ℚ) (o : GameObject)
    (h : o.hasFired = some true) :
    (procObj player dist sd o).1.hasFired = some true ∧
    (procObj player dist sd o).2.1 = false := by
  have hf : firesB dist sd o = false := by simp [firesB, h]
  have ha : afterFireObj dist sd o = movedObj dist sd o := by simp [afterFireObj, hf]
  constructor
  · have hp := (collideObj_preserves player o.posZ (afterFireObj dist sd o)).2.2.2.2.2
    show (collideObj player o.posZ (afterFireObj dist sd o)).1.hasFired = some true
    rw [hp, ha]
    exact h
  · exact hf

theorem procObj_fired_hasFired (player : Vec3) (dist sd : ℚ) (o : GameObject)
    (h : firesB dist sd o = true) :
    (procObj player dist sd o).1.hasFired = some true := by
  have ha : (afterFireObj dist sd o).hasFired = some true := by simp [afterFireObj, h]
  have hp := (collideObj_preserves player o.posZ (afterFireObj dist sd o)).2.2.2.2.2
  show (collideObj player o.posZ (afterFireObj dist sd o)).1.hasFired = some true
  rw [hp, ha]

theorem firesB_iff (dist sd : ℚ) (o : GameObject) :
    firesB dist sd o = true ↔
      (o.type = ObjectType.ALIEN ∧ o.active = true ∧ o.hasFired ≠ some true ∧
        o.posZ + dist > -90) := by
  simp only [firesB, Bool.and_eq_true, decide_eq_true_eq]
  constructor
  · rintro ⟨⟨⟨h1, h2⟩, h3⟩, h4⟩
    refine ⟨h1, h2, h3, ?_⟩
    rwa [moveAmountFor, if_neg (by simp [h1])] at h4
  · rintro ⟨h1, h2, h3, h4⟩
    refine ⟨⟨⟨h1, h2⟩, h3⟩, ?_⟩
    rwa [moveAmountFor, if_neg (by simp [h1])]

theorem simLoop_kept_eq (player : Vec3) (dist sd : ℚ) (objs : List GameObject) (nid : ℕ) :
    (simLoop player dist sd objs nid).1 =
      (objs.map (fun o => (procObj player dist sd o).1)).filter
        (fun o => !(decide (o.posZ > REMOVE_DISTANCE))) := by
  induction objs generalizing nid with
  | nil => rfl
  | cons o rest ih =>
    simp only [simLoop, List.map_cons, List.filter_cons]
    by_cases h : (procObj player dist sd o).1.posZ > REMOVE_DISTANCE
    · simp [h, ih]
    · simp [h, ih]

theorem simLoop_missiles_len (player : Vec3) (dist sd : ℚ) (objs : List GameObject) (nid : ℕ) :
    (simLoop player dist sd objs nid).2.1.length =
      (objs.filter (fun o => firesB dist sd o)).length := by
  induction objs generalizing nid with
  | nil => rfl
  | cons o rest ih =>
    simp only [simLoop, List.filter_cons, procObj_fired_eq]
    by_cases h : firesB dist sd o = true
    · simp [h, ih]
    · simp [h, ih]

theorem simLoop_missiles_mem (player : Vec3) (dist sd : ℚ) (objs : List GameObject) (nid : ℕ) :
    ∀ m ∈ (simLoop player dist sd objs nid).2.1,
      m.type = ObjectType.MISSILE ∧
      ∃ o ∈ objs, firesB dist sd o = true ∧
        m.posX = (procObj player dist sd o).1.posX ∧ m.posY = 1 ∧
        m.posZ = (procObj player dist sd o).1.posZ + 2 := by
  induction objs generalizing nid with
  | nil => intro m hm; simp [simLoop] at hm
  | cons o rest ih =>
    intro m hm
    simp only [simLoop, procObj_fired_eq] at hm
    rw [List.mem_append] at hm
    rcases hm with hm | hm
    · by_cases h : firesB dist sd o = true
      · rw [if_pos h] at hm
        simp only [List.mem_singleton] at hm
        subst hm
        exact ⟨rfl, o, List.mem_cons_self _ _, h, rfl, rfl, rfl⟩
      · rw [if_neg h] at hm
        cases hm
    · obtain ⟨h1, o', ho', hrest⟩ := ih _ m hm
      exact ⟨h1, o', List.mem_cons_of_mem _ ho', hrest⟩

theorem simLoop_kept_mem (player : Vec3) (dist sd : ℚ) (objs : List GameObject) (nid : ℕ) :
    ∀ k ∈ (simLoop player dist sd objs nid).1,
      ∃ o ∈ objs, k = (procObj player dist sd o).1 := by
  intro k hk
  rw [simLoop_kept_eq] at hk
  rw [List.mem_filter] at hk
  obtain ⟨hk1, _⟩ := hk
  rw [List.mem_map] at hk1
  obtain ⟨o, ho, rfl⟩ := hk1
  exact ⟨o, ho, rfl⟩
theorem alienSpawns_type (lanes : List ℤ) (count : ℕ) (spawnZ : ℚ) (nid : ℕ) :
    ∀ x ∈ alienSpawns lanes count spawnZ nid, x.type = ObjectType.ALIEN := by
  intro x hx
  simp only [alienSpawns, List.mem_map] at hx
  obtain ⟨k, _, rfl⟩ := hx
  rfl

theorem spikeSpawns_type (lanes : List ℤ) (spawnZ : ℚ) (g : ℕ → ℚ) :
    ∀ (c i nid : ℕ), ∀ x ∈ spikeSpawns lanes spawnZ g i c nid,
      x.type = ObjectType.OBSTACLE ∨ x.type = ObjectType.GEM := by
  intro c
  induction c with
  | zero => intro i nid x hx; simp [spikeSpawns] at hx
  | succ c ih =>
    intro i nid x hx
    simp only [spikeSpawns] at hx
    by_cases h : g i < 3/10
    · rw [if_pos h, List.mem_cons, List.mem_cons] at hx
      rcases hx with rfl | rfl | hx
      · exact Or.inl rfl
      · exact Or.inr rfl
      · exact ih _ _ x hx
    · rw [if_neg h, List.mem_cons] at hx
      rcases hx with rfl | hx
      · exact Or.inl rfl
      · exact ih _ _ x hx

theorem spawnLetterDue_no_missile (rand : Oracle) (level laneCount : ℤ)
    (collected : List ℕ) (ss : SpawnState) (nid : ℕ) (spawnZ : ℚ) :
    ∀ x ∈ (spawnLetterDue rand level laneCount collected ss nid spawnZ).1,
      x.type ≠ ObjectType.MISSILE := by
  intro x hx
  simp only [spawnLetterDue] at hx
  split_ifs at hx <;> simp only [List.mem_singleton] at hx <;> subst hx <;>
    exact fun h => ObjectType.noConfusion h

theorem spawnWeighted_no_missile (rand : Oracle) (level laneCount lives maxLives : ℤ)
    (ss : SpawnState) (nid : ℕ) (spawnZ : ℚ) :
    ∀ x ∈ (spawnWeighted rand level laneCount lives maxLives ss nid spawnZ).1,
      x.type ≠ ObjectType.MISSILE := by
  intro x hx
  simp only [spawnWeighted] at hx
  split_ifs at hx <;>
    first
      | (simp only [List.mem_singleton] at hx; subst hx; exact fun h => ObjectType.noConfusion h)
      | (have h := alienSpawns_type _ _ _ _ x hx; rw [h]; decide)
      | (rcases spikeSpawns_type _ _ _ _ _ _ x hx with h | h <;> rw [h] <;> decide)

theorem spawnPhase_no_missile (rand : Oracle) (level laneCount lives maxLives : ℤ)
    (speed : ℚ) (collected : List ℕ) (ss : SpawnState) (nid : ℕ) (kept : List GameObject) :
    ∀ x ∈ (spawnPhase rand level laneCount lives maxLives speed collected ss nid kept).1,
      x.type ≠ ObjectType.MISSILE := by
  intro x hx
  simp only [spawnPhase] at hx
  split_ifs at hx <;>
    first
      | cases hx
      | exact spawnLetterDue_no_missile _ _ _ _ _ _ _ x hx
      | exact spawnWeighted_no_missile _ _ _ _ _ _ _ _ x hx

theorem getLetterInterval_values :
    getLetterInterval 1 = 150 ∧ getLetterInterval 2 = 225 ∧ getLetterInterval 3 = 675/2 := by
  refine ⟨?_, ?_, ?_⟩ <;> norm_num [getLetterInterval, BASE_LETTER_INTERVAL, show Int.toNat 2 = 2 from rfl]

theorem getLetterInterval_pos (level : ℤ) : 0 < getLetterInterval level := by
  rw [getLetterInterval]
  have h : (0 : ℚ) < (3/2) ^ (max 0 (level - 1)).toNat := by positivity
  have h2 : (0 : ℚ) < BASE_LETTER_INTERVAL := by norm_num [BASE_LETTER_INTERVAL]
  exact mul_pos h2 h

theorem getLetterInterval_geometric (level : ℤ) (h : 1 ≤ level) :
    getLetterInterval level = BASE_LETTER_INTERVAL * (3/2) ^ (level - 1).toNat := by
  rw [getLetterInterval, max_eq_right (by omega)]

theorem spawnLetterDue_available (rand : Oracle) (level laneCount : ℤ) (collected : List ℕ)
    (ss : SpawnState) (nid : ℕ) (spawnZ : ℚ)
    (hne : availableIndicesFor level collected ≠ [])
    (hr0 : 0 ≤ rand.pickRoll) (hr1 : rand.pickRoll < 1) :
    (spawnLetterDue rand level laneCount collected ss nid spawnZ).2.1.nextLetterDistance =
      ss.nextLetterDistance + getLetterInterval level ∧
    (spawnLetterDue rand level laneCount collected ss nid spawnZ).1.length = 1 ∧
    ∀ o ∈ (spawnLetterDue rand level laneCount collected ss nid spawnZ).1,
      o.type = ObjectType.LETTER ∧
      o.posX = ((getRandomLane laneCount rand.laneRoll : ℤ) : ℚ) * LANE_WIDTH ∧
      ∃ c, o.targetIndex = some c ∧ c ∉ collected ∧
        c < (getTargetCharsForLevel level).length := by
  have hlen : 0 < (availableIndicesFor level collected).length :=
    List.length_pos.mpr hne
  have hlenQ : (0 : ℚ) < ((availableIndicesFor level collected).length : ℚ) := by
    exact_mod_cast hlen
  have hfl : Int.floor (rand.pickRoll * ((availableIndicesFor level collected).length : ℚ)) <
      ((availableIndicesFor level collected).length : ℤ) := by
    apply Int.floor_lt.mpr
    push_cast
    calc rand.pickRoll * ((availableIndicesFor level collected).length : ℚ)
        < 1 * ((availableIndicesFor level collected).length : ℚ) :=
          mul_lt_mul_of_pos_right hr1 hlenQ
      _ = ((availableIndicesFor level collected).length : ℚ) := one_mul _
  have hidx : (Int.floor (rand.pickRoll *
      ((availableIndicesFor level collected).length : ℚ))).toNat <
      (availableIndicesFor level collected).length := by omega
  have hmem : (availableIndicesFor level collected).getD
      (Int.floor (rand.pickRoll * ((availableIndicesFor level collected).length : ℚ))).toNat 0 ∈
      availableIndicesFor level collected := by
    rw [List.getD_eq_getElem _ _ hidx]
    exact List.getElem_mem hidx
  have hprop : (availableIndicesFor level collected).getD
      (Int.floor (rand.pickRoll * ((availableIndicesFor level collected).length : ℚ))).toNat 0 ∉
        collected ∧
      (availableIndicesFor level collected).getD
      (Int.floor (rand.pickRoll * ((availableIndicesFor level collected).length : ℚ))).toNat 0 <
        (getTargetCharsForLevel level).length := by
    have h2 := hmem
    simp only [availableIndicesFor, List.mem_filter, List.mem_range, decide_eq_true_eq] at h2
    exact ⟨h2.2, h2.1⟩
  have heq : spawnLetterDue rand level laneCount collected ss nid spawnZ =
      ([{ id := nid, type := ObjectType.LETTER,
          posX := ((getRandomLane laneCount rand.laneRoll : ℤ) : ℚ) * LANE_WIDTH,
          posY := 1, posZ := spawnZ, active := true,
          color := (getTargetColorsForLevel level).get?
            ((availableIndicesFor level collected).getD
              (Int.floor (rand.pickRoll *
                ((availableIndicesFor level collected).length : ℚ))).toNat 0),
          value := (getTargetCharsForLevel level).get?
            ((availableIndicesFor level collected).getD
              (Int.floor (rand.pickRoll *
                ((availableIndicesFor level collected).length : ℚ))).toNat 0),
          targetIndex := some ((availableIndicesFor level collected).getD
            (Int.floor (rand.pickRoll *
              ((availableIndicesFor level collected).length : ℚ))).toNat 0) }],
       { ss with nextLetterDistance := ss.nextLetterDistance + getLetterInterval level },
       nid + 1) := by
    simp only [spawnLetterDue, if_pos hlen]
  rw [heq]
  refine ⟨rfl, rfl, ?_⟩
  intro o ho
  simp only [List.mem_singleton] at ho
  subst ho
  exact ⟨rfl, rfl, _, rfl, hprop.1, hprop.2⟩

theorem spawnLetterDue_fallback (rand : Oracle) (level laneCount : ℤ) (collected : List ℕ)
    (ss : SpawnState) (nid : ℕ) (spawnZ : ℚ)
    (hemp : availableIndicesFor level collected = []) :
    spawnLetterDue rand level laneCount collected ss nid spawnZ =
      ([{ id := nid, type := ObjectType.GEM,
          posX := ((getRandomLane laneCount rand.laneRoll : ℤ) : ℚ) * LANE_WIDTH,
          posY := 6/5, posZ := spawnZ, active := true,
          color := some "#00ffff", points := some 50 }],
       ss, nid + 1) := by
  simp only [spawnLetterDue, hemp]
  rw [if_neg (by simp)]

theorem spawnPhase_letterDue_eq (rand : Oracle) (level laneCount lives maxLives : ℤ)
    (speed : ℚ) (collected : List ℕ) (ss : SpawnState) (nid : ℕ) (kept : List GameObject)
    (h1 : furthestZOf kept > -SPAWN_DISTANCE)
    (h2 : ss.distanceTraveled ≥ ss.nextLetterDistance) :
    spawnPhase rand level laneCount lives maxLives speed collected ss nid kept =
      spawnLetterDue rand level laneCount collected ss nid
        (min (furthestZOf kept - (12 + speed * (2/5))) (-SPAWN_DISTANCE)) := by
  simp only [spawnPhase, if_pos h1, if_pos h2]

theorem spawnPhase_no_spawn (rand : Oracle) (level laneCount lives maxLives : ℤ)
    (speed : ℚ) (collected : List ℕ) (ss : SpawnState) (nid : ℕ) (kept : List GameObject)
    (h2 : ¬ss.distanceTraveled ≥ ss.nextLetterDistance)
    (h3 : ¬rand.skipRoll > 1/10) :
    spawnPhase rand level laneCount lives maxLives speed collected ss nid kept =
      ([], ss, nid) := by
  simp only [spawnPhase]
  by_cases h1 : furthestZOf kept > -SPAWN_DISTANCE
  · rw [if_pos h1, if_neg h2, if_neg h3]
  · rw [if_neg h1]

/-! Concrete evaluations for the crossing scenarios. -/

theorem obstacleCross_fires : firesB 6 (1/20) obstacleCross = false := by decide

theorem obstacleCross_after :
    afterFireObj 6 (1/20) obstacleCross = { obstacleCross with posZ := 1 } := by
  rw [afterFireObj, obstacleCross_fires]
  simp only [Bool.false_eq_true, if_false, movedObj, moveAmountFor]
  rw [if_neg (by decide)]
  simp [obstacleCross]
  norm_num

theorem obstacleCross_collide :
    collideObj playerOrigin (-5) { obstacleCross with posZ := 1 } =
      ({ obstacleCross with posZ := 1, active := false }, [Effect.playerHit]) := by
  norm_num [collideObj, obstacleCross, playerOrigin, inZZoneB, Z_THRESHOLD, OBSTACLE_HEIGHT]
  all_goals decide

theorem obstacleCross_proc :
    procObj playerOrigin 6 (1/20) obstacleCross =
      ({ obstacleCross with posZ := 1, active := false }, false, [Effect.playerHit]) := by
  have hz : obstacleCross.posZ = -5 := rfl
  simp only [procObj, obstacleCross_fires, obstacleCross_after, hz, obstacleCross_collide,
    Bool.false_eq_true, if_false, List.nil_append]

theorem gemCross_fires : firesB 6 (1/20) gemCross = false := by decide

theorem gemCross_after :
    afterFireObj 6 (1/20) gemCross = { gemCross with posZ := 1 } := by
  rw [afterFireObj, gemCross_fires]
  simp only [Bool.false_eq_true, if_false, movedObj, moveAmountFor]
  rw [if_neg (by decide)]
  simp [gemCross]
  norm_num

theorem gemCross_collide :
    collideObj playerOrigin (-5) { gemCross with posZ := 1 } =
      ({ gemCross with posZ := 1, active := false },
       [Effect.gemPickup 50, Effect.particleBurst 0 (6/5) 1 "#00ffff"]) := by
  simp only [collideObj]
  rw [if_pos (show ({ gemCross with posZ := 1 } : GameObject).active = true from rfl)]
  rw [if_pos (show inZZoneB (-5) ({ gemCross with posZ := 1 } : GameObject).posZ
    playerOrigin.z = true by norm_num [inZZoneB, Z_THRESHOLD, gemCross, playerOrigin])]
  rw [if_pos (show
    decide (|({ gemCross with posZ := 1 } : GameObject).posX - playerOrigin.x| < 9/10) = true
    by norm_num [gemCross, playerOrigin])]
  rw [if_neg (show ¬((decide (({ gemCross with posZ := 1 } : GameObject).type =
      ObjectType.OBSTACLE) ||
      decide (({ gemCross with posZ := 1 } : GameObject).type = ObjectType.ALIEN) ||
      decide (({ gemCross with posZ := 1 } : GameObject).type = ObjectType.MISSILE)) = true)
    by decide)]
  rw [if_pos (show
    decide (|({ gemCross with posZ := 1 } : GameObject).posY - playerOrigin.y| < 5/2) = true
    by norm_num [abs_lt, gemCross, playerOrigin])]
  rw [if_pos (show ({ gemCross with posZ := 1 } : GameObject).type = ObjectType.GEM from rfl)]
  rw [if_neg (show ¬(({ gemCross with posZ := 1 } : GameObject).type = ObjectType.LETTER)
    by decide)]
  rw [if_neg (show ¬(({ gemCross with posZ := 1 } : GameObject).type = ObjectType.IMMORTALITY)
    by decide)]
  rw [if_neg (show ¬(({ gemCross with posZ := 1 } : GameObject).type = ObjectType.HEART)
    by decide)]
  norm_num [pointsOrDefault, gemCross]

theorem gemCross_proc :
    procObj playerOrigin 6 (1/20) gemCross =
      ({ gemCross with posZ := 1, active := false }, false,
       [Effect.gemPickup 50, Effect.particleBurst 0 (6/5) 1 "#00ffff"]) := by
  have hz : gemCross.posZ = -5 := rfl
  simp only [procObj, gemCross_fires, gemCross_after, hz, gemCross_collide,
    Bool.false_eq_true, if_false, List.nil_append]

theorem obstacleCross_fires3 : firesB 3 (1/20) obstacleCross = false := by decide

theorem obstacleCross_after3 :
    afterFireObj 3 (1/20) obstacleCross = { obstacleCross with posZ := -2 } := by
  rw [afterFireObj, obstacleCross_fires3]
  simp only [Bool.false_eq_true, if_false, movedObj, moveAmountFor]
  rw [if_neg (by decide)]
  simp [obstacleCross]
  norm_num

theorem obstacleCross_collide3a :
    collideObj playerOrigin (-5) { obstacleCross with posZ := -2 } =
      ({ obstacleCross with posZ := -2 }, []) := by
  norm_num [collideObj, obstacleCross, playerOrigin, inZZoneB, Z_THRESHOLD]
  all_goals decide

theorem obstacleCross_proc3a :
    procObj playerOrigin 3 (1/20) obstacleCross =
      ({ obstacleCross with posZ := -2 }, false, []) := by
  have hz : obstacleCross.posZ = -5 := rfl
  simp only [procObj, obstacleCross_fires3, obstacleCross_after3, hz, obstacleCross_collide3a,
    Bool.false_eq_true, if_false, List.nil_append]

theorem obstacleMid_fires : firesB 3 (1/20) { obstacleCross with posZ := -2 } = false := by
  decide

theorem obstacleMid_after :
    afterFireObj 3 (1/20) { obstacleCross with posZ := -2 } =
      { obstacleCross with posZ := 1 } := by
  rw [afterFireObj, obstacleMid_fires]
  simp only [Bool.false_eq_true, if_false, movedObj, moveAmountFor]
  rw [if_neg (by decide)]
  simp [obstacleCross]
  norm_num

theorem obstacleMid_collide :
    collideObj playerOrigin (-2) { obstacleCross with posZ := 1 } =
      ({ obstacleCross with posZ := 1, active := false }, [Effect.playerHit]) := by
  norm_num [collideObj, obstacleCross, playerOrigin, inZZoneB, Z_THRESHOLD, OBSTACLE_HEIGHT]
  all_goals decide

theorem obstacleMid_proc :
    procObj playerOrigin 3 (1/20) { obstacleCross with posZ := -2 } =
      ({ obstacleCross with posZ := 1, active := false }, false, [Effect.playerHit]) := by
  have hz : ({ obstacleCross with posZ := -2 } : GameObject).posZ = -2 := rfl
  simp only [procObj, obstacleMid_fires, obstacleMid_after, hz, obstacleMid_collide,
    Bool.false_eq_true, if_false, List.nil_append]

theorem obstacleDead_proc :
    procObj playerOrigin 6 (1/20) { obstacleCross with posZ := 1, active := false } =
      ({ obstacleCross with posZ := 7, active := false }, false, []) := by
  rw [procObj_inactive playerOrigin 6 (1/20) _ rfl]
  simp only [movedObj, moveAmountFor]
  rw [if_neg (by decide)]
  simp [obstacleCross]
  norm_num

theorem c4Obstacle_fires : firesB 1 (1/20) c4Obstacle = false := by decide

theorem c4Obstacle_after :
    afterFireObj 1 (1/20) c4Obstacle = { c4Obstacle with posZ := 0 } := by
  rw [afterFireObj, c4Obstacle_fires]
  simp only [Bool.false_eq_true, if_false, movedObj, moveAmountFor]
  rw [if_neg (by decide)]
  simp [c4Obstacle]
  all_goals norm_num

theorem c4Obstacle_collide :
    collideObj playerOrigin (-1) { c4Obstacle with posZ := 0 } =
      ({ c4Obstacle with posZ := 0, active := false }, [Effect.playerHit]) := by
  norm_num [collideObj, c4Obstacle, playerOrigin, inZZoneB, Z_THRESHOLD, OBSTACLE_HEIGHT]
  all_goals decide

theorem c4Obstacle_proc :
    procObj playerOrigin 1 (1/20) c4Obstacle =
      ({ c4Obstacle with posZ := 0, active := false }, false, [Effect.playerHit]) := by
  have hz : c4Obstacle.posZ = -1 := rfl
  simp only [procObj, c4Obstacle_fires, c4Obstacle_after, hz, c4Obstacle_collide,
    Bool.false_eq_true, if_false, List.nil_append]

theorem c4Dead_proc :
    procObj playerOrigin 1 (1/20) { c4Obstacle with posZ := 0, active := false } =
      ({ c4Obstacle with posZ := 1, active := false }, false, []) := by
  rw [procObj_inactive playerOrigin 1 (1/20) _ rfl]
  simp only [movedObj, moveAmountFor]
  rw [if_neg (by decide)]
  simp [c4Obstacle]
  all_goals norm_num

theorem c4_simLoop1 :
    simLoop playerOrigin 1 (1/20) [c4Obstacle] 100 =
      ([{ c4Obstacle with posZ := 0, active := false }], [], [Effect.playerHit], 100) := by
  simp only [simLoop, c4Obstacle_proc, Bool.false_eq_true, if_false]
  rw [if_neg (by decide)]
  simp

theorem c4_simLoop2 :
    simLoop playerOrigin 1 (1/20) [{ c4Obstacle with posZ := 0, active := false }] 100 =
      ([{ c4Obstacle with posZ := 1, active := false }], [], [], 100) := by
  simp only [simLoop, c4Dead_proc, Bool.false_eq_true, if_false]
  rw [if_neg (by decide)]
  simp

theorem c4_tick1_eq :
    c4Tick1 = ([{ c4Obstacle with posZ := 0, active := false }],
      { c4SpawnState with distanceTraveled := 1 }, 100, [Effect.playerHit]) := by
  rw [c4Tick1]
  simp only [fullTick]
  rw [show min (1/20 : ℚ) (1/20) = 1/20 from min_self _]
  rw [show (20 : ℚ) * (1/20) = 1 by norm_num]
  rw [c4_simLoop1]
  rw [spawnPhase_no_spawn _ _ _ _ _ _ _ _ _ _ (by norm_num [c4SpawnState])
    (by norm_num [noSpawnOracle])]
  simp [c4SpawnState]

theorem c4_tick2_eq :
    c4Tick2 = ([{ c4Obstacle with posZ := 1, active := false }],
      { c4SpawnState with distanceTraveled := 2 }, 100, []) := by
  rw [c4Tick2, c4_tick1_eq]
  simp only [fullTick]
  rw [show min (1/20 : ℚ) (1/20) = 1/20 from min_self _]
  rw [show (20 : ℚ) * (1/20) = 1 by norm_num]
  rw [c4_simLoop2]
  rw [spawnPhase_no_spawn _ _ _ _ _ _ _ _ _ _ (by norm_num [c4SpawnState])
    (by norm_num [noSpawnOracle])]
  simp [c4SpawnState]
  norm_num

theorem c7_eval :
    c7Result =
      ([{ id := 50, type := ObjectType.GEM,
          posX := ((getRandomLane 3 noSpawnOracle.laneRoll : ℤ) : ℚ) * LANE_WIDTH,
          posY := 6/5,
          posZ := min (furthestZOf [] - (12 + (45/2) * (2/5))) (-SPAWN_DISTANCE),
          active := true, color := some "#00ffff", points := some 50 }],
       c7SpawnState, 51) := by
  rw [c7Result]
  rw [spawnPhase_letterDue_eq _ _ _ _ _ _ _ _ _ _
    (by norm_num [furthestZOf, SPAWN_DISTANCE]) (by norm_num [c7SpawnState])]
  rw [spawnLetterDue_fallback _ _ _ _ _ _ _ (by decide)]
/-! The claims, settled. -/

/-- Claim C1: for every state reachable from the initial state via the store's
actions (startGame, restartGame, takeDamage, addScore, collectGem,
collectLetter, healOne, advanceLevel, activateImmortality) as driven by the
simulation, lives satisfies 0 <= lives <= maxLives, and status = GameOver
implies both lives = 0 and speed = 0. -/
theorem C1_lives_invariant (acts : List Act) : LivesInv (run acts initialState) :=
  run_LivesInv acts initialState
    ⟨by decide, by decide, fun h => by simp [initialState] at h⟩

/-- Claim C9: in the driven status machine no step leads from Menu directly to
GameOver or Victory, and every driven run from the initial (Menu) state that
ends in a terminal status passes through a Playing state. -/
theorem C9_no_menu_to_terminal (a : Act) (s : GameState)
    (hs : s.status = GameStatus.MENU) (acts : List Act)
    (hterm : (run acts initialState).status = GameStatus.GAME_OVER ∨
      (run acts initialState).status = GameStatus.VICTORY) :
    ((drivenStep a s).status ≠ GameStatus.GAME_OVER ∧
      (drivenStep a s).status ≠ GameStatus.VICTORY) ∧
    GameStatus.PLAYING ∈ (runTrace acts initialState).map GameState.status := by
  constructor
  · rcases menuStep_status a s hs with h | h <;> simp [h]
  · exact menu_path_playing acts initialState rfl hterm

theorem C9_no_menu_to_terminal_witness :
    ((drivenStep Act.takeDamage initialState).status ≠ GameStatus.GAME_OVER ∧
      (drivenStep Act.takeDamage initialState).status ≠ GameStatus.VICTORY) ∧
    GameStatus.PLAYING ∈ (runTrace c9Acts initialState).map GameState.status :=
  C9_no_menu_to_terminal Act.takeDamage initialState rfl c9Acts (Or.inl (by decide))

/-- Claim C10: startGame and restartGame are extensionally equal, and on any
state both produce status Playing, score 0, lives = maxLives = 3,
speed = baseSpeed, level 1, laneCount 3, gemsCollected 0, distance 0, and
cleared letters and immortality buff. -/
theorem C10_start_restart_equal (s : GameState) :
    restartGame s = startGame s ∧
    (startGame s).status = GameStatus.PLAYING ∧
    (startGame s).score = 0 ∧
    (startGame s).lives = 3 ∧
    (startGame s).maxLives = 3 ∧
    (startGame s).speed = RUN_SPEED_BASE ∧
    (startGame s).level = 1 ∧
    (startGame s).laneCount = 3 ∧
    (startGame s).gemsCollected = 0 ∧
    (startGame s).distance = 0 ∧
    (startGame s).collectedLetters = [] ∧
    (startGame s).isImmortalityActive = false ∧
    (startGame s).immortalityEndsAt = 0 :=
  ⟨rfl, rfl, rfl, rfl, rfl, rfl, rfl, rfl, rfl, rfl, rfl, rfl, rfl⟩

/-- Claim C3: from a fresh session, collecting letters 0 through 7 (the level-1
target has 8 characters) in order ends with level 2, empty collected letters,
speed = baseSpeed + baseSpeed*0.48 + baseSpeed*0.32 exactly, laneCount 5, and
status Playing. -/
theorem C3_level1_completion :
    (getTargetCharsForLevel 1).length = 8 ∧
    (run c3Acts initialState).level = 2 ∧
    (run c3Acts initialState).collectedLetters = [] ∧
    (run c3Acts initialState).speed =
      RUN_SPEED_BASE + RUN_SPEED_BASE * (12/25) + RUN_SPEED_BASE * (8/25) ∧
    (run c3Acts initialState).laneCount = 5 ∧
    (run c3Acts initialState).status = GameStatus.PLAYING := by
  refine ⟨by decide, by decide, by decide, ?_, by decide, by decide⟩
  have h1 : getTargetCharsForLevel 1 = ['英', '荔', 'A', 'I', '创', '造', '乐', '园'] := by decide
  simp [c3Acts, run, drivenStep, collectLetter, advanceLevel, startGame, initialState, h1,
    makeOdd, MAX_LEVEL]
  norm_num [RUN_SPEED_BASE, LETTER_SPEED_TOTAL_FRACTION, DIFFICULTY_MULT]

/-- Claim C8 (counterexample): restartGame is a store action that keeps status
Playing while strictly decreasing speed, falsifying speed monotonicity over
arbitrary store-action sequences that stay in Playing. -/
theorem C8_counterexample :
    c8Before.status = GameStatus.PLAYING ∧
    c8After.status = GameStatus.PLAYING ∧
    c8After.speed < c8Before.speed := by
  refine ⟨by decide, by decide, ?_⟩
  have h1 : getTargetCharsForLevel 1 = ['英', '荔', 'A', 'I', '创', '造', '乐', '园'] := by decide
  simp [c8Before, c8After, run, drivenStep, collectLetter, restartGame, startGame,
    initialState, h1]
  norm_num [RUN_SPEED_BASE, LETTER_SPEED_TOTAL_FRACTION, DIFFICULTY_MULT]

/-- Claim C8 (amended): across any sequence of store actions other than
startGame and restartGame during which status remains Playing, speed never
decreases; it strictly increases on each collectLetter with a
not-yet-collected index and on each advanceLevel. -/
theorem C8_speed_monotone :
    (∀ acts s, s.status = GameStatus.PLAYING →
      (∀ t ∈ runTrace acts s, t.status = GameStatus.PLAYING) →
      (∀ a ∈ acts, a ≠ Act.startGame ∧ a ≠ Act.restartGame) →
      s.speed ≤ (run acts s).speed) ∧
    (∀ index s, s.status = GameStatus.PLAYING → index ∉ s.collectedLetters →
      s.speed < (drivenStep (Act.collectLetter index) s).speed) ∧
    (∀ s, s.status = GameStatus.PLAYING →
      s.speed < (drivenStep Act.advanceLevel s).speed) := by
  refine ⟨run_speed_mono, ?_, ?_⟩
  · intro index s hs hnew
    simp only [drivenStep, hs, if_true]
    exact collectLetter_speed_lt index s hnew
  · intro s hs
    simp only [drivenStep, hs, if_true]
    exact advanceLevel_speed_lt s

theorem C8_speed_monotone_witness :
    (startGame initialState).speed <
      (drivenStep (Act.collectLetter 0) (startGame initialState)).speed :=
  C8_speed_monotone.2.1 0 (startGame initialState) rfl (by decide)

/-- Claim C5 (code evaluation at the failing input): after a hard reset with a
stale 5-second expiry timer pending and a new buff activated at t=3000 (own
expiry t=8000), the stale timer firing at t=5000 clears the new session's
buff state, although the claim requires it to stay active until t=8000. -/
theorem C5_stale_timer_clears_new_buff :
    c5BeforeStaleFire.game.isImmortalityActive = true ∧
    c5BeforeStaleFire.game.immortalityEndsAt = 8000 ∧
    c5AfterStaleFire.now = 5000 ∧
    c5AfterStaleFire.now < 8000 ∧
    c5AfterStaleFire.game.isImmortalityActive = false ∧
    c5AfterStaleFire.game.immortalityEndsAt = 0 := by
  have h : c5BeforeStaleFire =
      { game := { startGame initialState with
          isImmortalityActive := true, immortalityEndsAt := 8000 },
        now := 3000, pendingClears := [5000, 8000] } := by
    simp [c5BeforeStaleFire, c5Start, timedActivate, timedElapse, timedRestart,
      activateImmortality, restartGame, startGame, initialState]
    norm_num
  constructor
  · rw [h]
  constructor
  · rw [h]
  have h2 : c5AfterStaleFire =
      { game := { startGame initialState with
          isImmortalityActive := false, immortalityEndsAt := 0 },
        now := 5000, pendingClears := [8000] } := by
    rw [c5AfterStaleFire, h]
    simp [timedElapse, clearImmortality]
    norm_num
  refine ⟨by rw [h2], by rw [h2]; norm_num, by rw [h2], by rw [h2]⟩

/-- Claim C2: an object whose scroll coordinate crosses the player's zone
within one tick (spec scroll coordinate 5 down to -1, i.e. world z from -5 to
1, zone threshold 2, lateral and vertical overlap satisfied) is detected by
the swept test, deactivated, and its gameplay effect (hit signal for the
obstacle, pickup for the gem) fires exactly once, also when the move is split
into sub-steps and on any later tick; in general a gameplay effect is emitted
only when the pre-move/post-move scroll interval overlaps the fixed-width
zone around the player's scroll position. -/
theorem C2_swept_collision :
    ((procObj playerOrigin 6 (1/20) obstacleCross).1.active = false ∧
     (procObj playerOrigin 6 (1/20) obstacleCross).1.posZ = 1 ∧
     (procObj playerOrigin 6 (1/20) obstacleCross).2.2.filter Effect.isGameplay =
       [Effect.playerHit]) ∧
    ((procObj playerOrigin 6 (1/20) gemCross).1.active = false ∧
     (procObj playerOrigin 6 (1/20) gemCross).2.2.filter Effect.isGameplay =
       [Effect.gemPickup 50]) ∧
    ((procObj playerOrigin 3 (1/20) obstacleCross).2.2 ++
      (procObj playerOrigin 3 (1/20) (procObj playerOrigin 3 (1/20) obstacleCross).1).2.2 =
      [Effect.playerHit]) ∧
    ((procObj playerOrigin 6 (1/20) (procObj playerOrigin 6 (1/20) obstacleCross).1).2.2 =
      []) ∧
    (∀ player dist sd o, ((procObj player dist sd o).2.2.any Effect.isGameplay) = true →
      inZZoneB o.posZ (o.posZ + moveAmountFor dist sd o) player.z = true) := by
  refine ⟨⟨?_, ?_, ?_⟩, ⟨?_, ?_⟩, ?_, ?_, procObj_gameplay_zone⟩
  · rw [obstacleCross_proc]
  · rw [obstacleCross_proc]
  · rw [obstacleCross_proc]; rfl
  · rw [gemCross_proc]
  · rw [gemCross_proc]; rfl
  · simp only [obstacleCross_proc3a, obstacleMid_proc]
    rfl
  · simp only [obstacleCross_proc, obstacleDead_proc]

theorem C2_swept_collision_witness :
    inZZoneB obstacleCross.posZ
      (obstacleCross.posZ + moveAmountFor 6 (1/20) obstacleCross) playerOrigin.z = true :=
  C2_swept_collision.2.2.2.2 playerOrigin 6 (1/20) obstacleCross
    (by simp only [obstacleCross_proc]; rfl)

/-- Claim C4 (counterexample): an obstacle that becomes inactive during one
tick (hit at world z = 0) is still in the registry at the end of the next
tick, although its scroll coordinate (1) has not passed the removal
threshold, so it is not removed by the earlier of the two deadlines the
claim states. -/
theorem C4_counterexample :
    c4Tick1.1 = [{ c4Obstacle with posZ := 0, active := false }] ∧
    c4Tick2.1 = [{ c4Obstacle with posZ := 1, active := false }] ∧
    ¬((1 : ℚ) > REMOVE_DISTANCE) := by
  refine ⟨?_, ?_, by norm_num [REMOVE_DISTANCE]⟩
  · rw [c4_tick1_eq]
  · rw [c4_tick2_eq]

/-- Claim C4 (amended): during a tick an object is removed from the registry
exactly when its post-move scroll coordinate exceeds the removal threshold,
independent of its active flag; an inactive object is otherwise only moved
and retained. -/
theorem C4_cull_by_threshold :
    (∀ player dist sd objs nid,
      (simLoop player dist sd objs nid).1 =
        (objs.map (fun o => (procObj player dist sd o).1)).filter
          (fun o => !(decide (o.posZ > REMOVE_DISTANCE)))) ∧
    (∀ player dist sd o, o.active = false →
      procObj player dist sd o = (movedObj dist sd o, false, [])) :=
  ⟨simLoop_kept_eq, procObj_inactive⟩

theorem C4_cull_by_threshold_witness :
    procObj playerOrigin 6 (1/20) { gemCross with active := false } =
      (movedObj 6 (1/20) { gemCross with active := false }, false, []) :=
  C4_cull_by_threshold.2 playerOrigin 6 (1/20) { gemCross with active := false } rfl

/-- Claim C6: an alien fires at most one missile over its lifetime: the fire
condition requires an active Alien with hasFired not yet true whose scroll
coordinate has crossed the proximity threshold; firing marks hasFired true in
the same step and spawns exactly one missile at the alien's lane, y = 1, two
units ahead; an alien with hasFired true never fires; missiles come only from
this simulation-step path, never from the spawn scheduler. -/
theorem C6_alien_fire_once :
    (∀ dist sd o, firesB dist sd o = true ↔
      (o.type = ObjectType.ALIEN ∧ o.active = true ∧ o.hasFired ≠ some true ∧
        o.posZ + dist > -90)) ∧
    (∀ player dist sd o, (procObj player dist sd o).2.1 = firesB dist sd o) ∧
    (∀ player dist sd o, firesB dist sd o = true →
      (procObj player dist sd o).1.hasFired = some true) ∧
    (∀ player dist sd o, o.hasFired = some true →
      (procObj player dist sd o).1.hasFired = some true ∧
      (procObj player dist sd o).2.1 = false) ∧
    (∀ player dist sd objs nid,
      (simLoop player dist sd objs nid).2.1.length =
        (objs.filter (fun o => firesB dist sd o)).length) ∧
    (∀ player dist sd objs nid, ∀ m ∈ (simLoop player dist sd objs nid).2.1,
      m.type = ObjectType.MISSILE ∧ ∃ o ∈ objs, firesB dist sd o = true ∧
        m.posX = (procObj player dist sd o).1.posX ∧ m.posY = 1 ∧
        m.posZ = (procObj player dist sd o).1.posZ + 2) ∧
    (∀ player dist sd objs nid, ∀ k ∈ (simLoop player dist sd objs nid).1,
      ∃ o ∈ objs, k = (procObj player dist sd o).1) ∧
    (∀ rand level laneCount lives maxLives speed collected ss nid kept,
      ∀ x ∈ (spawnPhase rand level laneCount lives maxLives speed collected ss nid kept).1,
        x.type ≠ ObjectType.MISSILE) :=
  ⟨firesB_iff, procObj_fired_eq, procObj_fired_hasFired, procObj_hasFired_mono,
   simLoop_missiles_len, simLoop_missiles_mem, simLoop_kept_mem, spawnPhase_no_missile⟩

theorem C6_alien_fire_once_witness :
    (procObj playerOrigin 1 (1/20)
      { id := 3, type := ObjectType.ALIEN, posX := 0, posY := 3/2, posZ := -50,
        active := true, color := some "#00ff00", hasFired := some true }).1.hasFired =
      some true ∧
    (procObj playerOrigin 1 (1/20)
      { id := 3, type := ObjectType.ALIEN, posX := 0, posY := 3/2, posZ := -50,
        active := true, color := some "#00ff00", hasFired := some true }).2.1 = false :=
  C6_alien_fire_once.2.2.2.1 playerOrigin 1 (1/20)
    { id := 3, type := ObjectType.ALIEN, posX := 0, posY := 3/2, posZ := -50,
      active := true, color := some "#00ff00", hasFired := some true } rfl

/-- Claim C7 (counterexample): with a letter due and every target character of
the level already collected, the scheduler spawns the fallback gem but does
not advance the next-letter-distance counter, contradicting the claim that
the counter is advanced by the per-level interval. -/
theorem C7_counterexample :
    availableIndicesFor 1 c7AllCollected = [] ∧
    c7Result.2.1.nextLetterDistance = 150 ∧
    getLetterInterval 1 = 150 ∧
    c7SpawnState.nextLetterDistance + getLetterInterval 1 ≠
      c7Result.2.1.nextLetterDistance ∧
    c7Result.1.length = 1 ∧
    ∀ o ∈ c7Result.1, o.type = ObjectType.GEM := by
  refine ⟨by decide, ?_, getLetterInterval_values.1, ?_, ?_, ?_⟩
  · rw [c7_eval]; rfl
  · rw [c7_eval, getLetterInterval_values.1]
    norm_num [c7SpawnState]
  · rw [c7_eval]; rfl
  · rw [c7_eval]
    intro o ho
    simp only [List.mem_singleton] at ho
    subst ho
    rfl

/-- Claim C7 (amended): the per-level letter interval is the base interval
times 1.5^(level-1); with a spawn gap and a letter due, the scheduler runs the
letter branch at the computed spawn point; with an uncollected character left
and an in-range random draw it spawns exactly one Letter carrying an
uncollected target index at the drawn lane and advances the next-letter
counter by the per-level interval; with every character collected it spawns
exactly one fallback Gem and leaves the counter unchanged. -/
theorem C7_letter_scheduling :
    (getLetterInterval 1 = 150 ∧ getLetterInterval 2 = 225 ∧ getLetterInterval 3 = 675/2) ∧
    (∀ level : ℤ, 1 ≤ level →
      getLetterInterval level = BASE_LETTER_INTERVAL * (3/2) ^ (level - 1).toNat) ∧
    (∀ rand level laneCount lives maxLives speed collected ss nid kept,
      furthestZOf kept > -SPAWN_DISTANCE →
      ss.distanceTraveled ≥ ss.nextLetterDistance →
      spawnPhase rand level laneCount lives maxLives speed collected ss nid kept =
        spawnLetterDue rand level laneCount collected ss nid
          (min (furthestZOf kept - (12 + speed * (2/5))) (-SPAWN_DISTANCE))) ∧
    (∀ rand level laneCount collected ss nid spawnZ,
      availableIndicesFor level collected ≠ [] →
      0 ≤ (rand : Oracle).pickRoll → rand.pickRoll < 1 →
      (spawnLetterDue rand level laneCount collected ss nid spawnZ).2.1.nextLetterDistance =
        ss.nextLetterDistance + getLetterInterval level ∧
      (spawnLetterDue rand level laneCount collected ss nid spawnZ).1.length = 1 ∧
      ∀ o ∈ (spawnLetterDue rand level laneCount collected ss nid spawnZ).1,
        o.type = ObjectType.LETTER ∧
        o.posX = ((getRandomLane laneCount rand.laneRoll : ℤ) : ℚ) * LANE_WIDTH ∧
        ∃ c, o.targetIndex = some c ∧ c ∉ collected ∧
          c < (getTargetCharsForLevel level).length) ∧
    (∀ rand level laneCount collected ss nid spawnZ,
      availableIndicesFor level collected = [] →
      (spawnLetterDue rand level laneCount collected ss nid spawnZ).2.1 = ss ∧
      (spawnLetterDue rand level laneCount collected ss nid spawnZ).1.length = 1 ∧
      ∀ o ∈ (spawnLetterDue rand level laneCount collected ss nid spawnZ).1,
        o.type = ObjectType.GEM) := by
  refine ⟨getLetterInterval_values, getLetterInterval_geometric, spawnPhase_letterDue_eq,
    spawnLetterDue_available, ?_⟩
  intro rand level laneCount collected ss nid spawnZ hemp
  rw [spawnLetterDue_fallback _ _ _ _ _ _ _ hemp]
  refine ⟨rfl, rfl, ?_⟩
  intro o ho
  simp only [List.mem_singleton] at ho
  subst ho
  rfl

theorem C7_letter_scheduling_witness :
    (spawnLetterDue noSpawnOracle 1 3 [] c7SpawnState 0 (-120)).2.1.nextLetterDistance =
      c7SpawnState.nextLetterDistance + getLetterInterval 1 ∧
    (spawnLetterDue noSpawnOracle 1 3 [] c7SpawnState 0 (-120)).1.length = 1 ∧
    ∀ o ∈ (spawnLetterDue noSpawnOracle 1 3 [] c7SpawnState 0 (-120)).1,
      o.type = ObjectType.LETTER ∧
      o.posX = ((getRandomLane 3 noSpawnOracle.laneRoll : ℤ) : ℚ) * LANE_WIDTH ∧
      ∃ c, o.targetIndex = some c ∧ c ∉ ([] : List ℕ) ∧
        c < (getTargetCharsForLevel 1).length :=
  C7_letter_scheduling.2.2.2.1 noSpawnOracle 1 3 [] c7SpawnState 0 (-120)
    (by decide) (by decide) (by decide)
